import Mathlib

/-!
Shallow embedding of the `optimisation` module of the denoising repository
(`optimisation/training.py` and `optimisation/testing.py`).

Modelling conventions:
* Image tensors are lists of opaque per-sample values (`List ℤ`); the code never
  inspects pixel data, it only slices batches (`[:n]`) and passes them along.
* Scalar losses and metric values are exact rationals (`ℚ`).
* The model forward pass, the loss criterion and the quality calculators are
  opaque function parameters.  In `train` the optimizer mutates the parameters
  after every batch, so the forward function there is additionally indexed by
  the number of optimizer steps taken so far; `validate`, `evaluate` and `test`
  never update parameters, so their forward functions are unindexed.
* Observable side effects (summary-writer scalar/image writes, optimizer steps,
  train/eval mode switches) are collected in an `Effect` trace in program order.
  Wall-clock timing (`batch_time_meter`), console printing and the tqdm
  progress bar are not modelled.  `.cuda()` device moves do not change tensor
  contents and are modelled as the identity on values.
* The filesystem seen by `testing.py` is a map from paths (lists of path
  components) to `file` / `dir` / `absent`; `torch.load` succeeds exactly on
  existing files.
-/

namespace Denoising

/-! ### Metric accumulator (`torchnet.meter.AverageValueMeter`)

`add` is always called with the default weight `n=1` in this code base; the
meter keeps a count and a running sum and exposes their quotient as `mean`. -/

structure AverageValueMeter where
  n : ℕ
  sum : ℚ
  deriving DecidableEq

/-- A freshly constructed meter: `AverageValueMeter()` starts from zero. -/
def AverageValueMeter.reset : AverageValueMeter := { n := 0, sum := 0 }

/-- Models `meter.add(value)` with the default unit weight. -/
def AverageValueMeter.add (m : AverageValueMeter) (v : ℚ) : AverageValueMeter :=
  { n := m.n + 1, sum := m.sum + v }

/-- Models `meter.mean`: the running arithmetic mean of the observed values. -/
def AverageValueMeter.mean (m : AverageValueMeter) : ℚ := m.sum / (m.n : ℚ)

/-! ### Run configuration (the fields of `args` read by this module) -/

structure Args where
  cuda : Bool
  train_batch_size : ℕ
  test_batch_size : ℕ
  num_samples_to_log : ℕ
  deriving DecidableEq

/-- One batch yielded by a data loader: the `noisy`/`clean` stacked tensors and
the ISO conditioning signal. -/
structure Batch where
  noisy : List ℤ
  clean : List ℤ
  iso : ℤ
  deriving DecidableEq

/-- Device move: `.cuda()` relocates a tensor without changing its values;
device placement is not tracked in this embedding. -/
def toDevice (_cuda : Bool) (t : List ℤ) : List ℤ := t

/-- Device move for the ISO scalar tensor. -/
def toDeviceScalar (_cuda : Bool) (x : ℤ) : ℤ := x

/-! ### Observable effects -/

inductive Effect where
  /-- Models `summary_writer.add_scalar(tag, value, step)`. -/
  | scalarWrite (tag : String) (value : ℚ) (step : ℕ)
  /-- Models `summary_writer.add_image(tag, make_grid(samples), step)`; the grid is
  identified by the list of samples it was built from. -/
  | imageWrite (tag : String) (grid : List ℤ) (step : ℕ)
  /-- Models `optimizer.step()`. -/
  | optimStep
  /-- Models `model.train()` (`true`) or `model.eval()` (`false`). -/
  | setMode (training : Bool)
  deriving DecidableEq

/-- Whether an effect is a write to the logging sink (scalar or image). -/
def Effect.isSinkWrite : Effect → Bool
  | .scalarWrite _ _ _ => true
  | .imageWrite _ _ _ => true
  | _ => false

/-- Project a scalar sink write out of an effect. -/
def Effect.scalarView : Effect → Option (String × ℚ × ℕ)
  | .scalarWrite tag v step => some (tag, v, step)
  | _ => none

/-- Project an image sink write out of an effect. -/
def Effect.imageView : Effect → Option (String × List ℤ × ℕ)
  | .imageWrite tag g step => some (tag, g, step)
  | _ => none

/-- The scalar sink writes of a trace, in order. -/
def scalarEvents (es : List Effect) : List (String × ℚ × ℕ) :=
  es.filterMap Effect.scalarView

/-- The image sink writes of a trace, in order. -/
def imageWrites (es : List Effect) : List (String × List ℤ × ℕ) :=
  es.filterMap Effect.imageView

/-! ### `log_images` (training.py, lines 134-144) -/

/-- Function `log_images` emits three image grids — noisy, denoised, clean — each built
from the first `n_samples` samples of its tensor, all at step
`training_iters`. -/
def log_images (noisy_image denoised_image clean_image : List ℤ)
    (n_samples : ℕ) (training_iters : ℕ) : List Effect :=
  [Effect.imageWrite "noisy_images" (noisy_image.take n_samples) training_iters,
   Effect.imageWrite "denoised_images" (denoised_image.take n_samples) training_iters,
   Effect.imageWrite "clean_images" (clean_image.take n_samples) training_iters]

/-- The step index used for training logs: `(epoch * steps) + i`. -/
def stepIndex (epoch steps i : ℕ) : ℕ := epoch * steps + i

/-! ### `train` (training.py, lines 11-67)

`modelF i` is the model's forward function after `i` optimizer updates (batch
`i` is forwarded before its own `optimizer.step()`, i.e. after the updates of
batches `0..i-1`). -/

/-- The loss of batch `b` at batch index `i`:
`criterion(model(noisy, iso), clean)`. -/
def batchLoss (args : Args) (modelF : ℕ → List ℤ → ℤ → List ℤ)
    (criterion : List ℤ → List ℤ → ℚ) (i : ℕ) (b : Batch) : ℚ :=
  criterion (modelF i (toDevice args.cuda b.noisy) (toDeviceScalar args.cuda b.iso))
    (toDevice args.cuda b.clean)

/-- The effects of one training iteration, in program order: the optimizer
step, then (first batch only, and only when
`train_batch_size >= num_samples_to_log`) the image grids, then the
`'Train/Loss'` scalar write of the raw batch loss. -/
def trainBatchEvents (args : Args) (modelF : ℕ → List ℤ → ℤ → List ℤ)
    (criterion : List ℤ → List ℤ → ℚ) (epoch steps i : ℕ) (b : Batch) : List Effect :=
  Effect.optimStep ::
    ((if i = 0 then
        if args.num_samples_to_log ≤ args.train_batch_size then
          log_images (toDevice args.cuda b.noisy)
            (modelF i (toDevice args.cuda b.noisy) (toDeviceScalar args.cuda b.iso))
            (toDevice args.cuda b.clean) args.num_samples_to_log (stepIndex epoch steps i)
        else []
      else []) ++
      [Effect.scalarWrite "Train/Loss" (batchLoss args modelF criterion i b)
        (stepIndex epoch steps i)])

/-- The `for i, sample in enumerate(train_loader)` loop: threads the loss
meter and the effect trace through the remaining batches, starting at batch
index `i`. -/
def trainLoop (args : Args) (modelF : ℕ → List ℤ → ℤ → List ℤ)
    (criterion : List ℤ → List ℤ → ℚ) (epoch steps : ℕ) :
    ℕ → List Batch → AverageValueMeter → List Effect → AverageValueMeter × List Effect
  | _, [], loss_meter, events => (loss_meter, events)
  | i, b :: rest, loss_meter, events =>
      trainLoop args modelF criterion epoch steps (i + 1) rest
        (loss_meter.add (batchLoss args modelF criterion i b))
        (events ++ trainBatchEvents args modelF criterion epoch steps i b)

/-- Function `train`: fresh meters, `model.train()`, one pass over the loader, returns
`loss_meter.mean` together with the trace of observable effects. -/
def train (args : Args) (train_loader : List Batch) (modelF : ℕ → List ℤ → ℤ → List ℤ)
    (criterion : List ℤ → List ℤ → ℚ) (epoch : ℕ) : ℚ × List Effect :=
  let steps := train_loader.length
  let r := trainLoop args modelF criterion epoch steps 0 train_loader
    AverageValueMeter.reset [Effect.setMode true]
  (r.1.mean, r.2)

/-- The per-batch criterion values of a training pass, in batch order,
starting at batch index `i`. -/
def trainLosses (args : Args) (modelF : ℕ → List ℤ → ℤ → List ℤ)
    (criterion : List ℤ → List ℤ → ℚ) : ℕ → List Batch → List ℚ
  | _, [] => []
  | i, b :: rest =>
      batchLoss args modelF criterion i b ::
        trainLosses args modelF criterion (i + 1) rest

/-! ### `validate` (training.py, lines 70-131) -/

/-- The loss of a validation batch (parameters are never updated, so the
forward function is unindexed). -/
def valBatchLoss (args : Args) (modelF : List ℤ → ℤ → List ℤ)
    (criterion : List ℤ → List ℤ → ℚ) (b : Batch) : ℚ :=
  criterion (modelF (toDevice args.cuda b.noisy) (toDeviceScalar args.cuda b.iso))
    (toDevice args.cuda b.clean)

/-- The effects of one validation iteration: image grids on the first batch
only, gated by `test_batch_size >= num_samples_to_log`, at the caller-supplied
step `training_iters`; no optimizer step and no per-batch scalar write. -/
def valBatchEvents (args : Args) (modelF : List ℤ → ℤ → List ℤ)
    (training_iters i : ℕ) (b : Batch) : List Effect :=
  if i = 0 then
    if args.num_samples_to_log ≤ args.test_batch_size then
      log_images (toDevice args.cuda b.noisy)
        (modelF (toDevice args.cuda b.noisy) (toDeviceScalar args.cuda b.iso))
        (toDevice args.cuda b.clean) args.num_samples_to_log training_iters
    else []
  else []

/-- The `for i, sample in enumerate(val_loader)` loop. -/
def valLoop (args : Args) (modelF : List ℤ → ℤ → List ℤ)
    (criterion : List ℤ → List ℤ → ℚ) (training_iters : ℕ) :
    ℕ → List Batch → AverageValueMeter → List Effect → AverageValueMeter × List Effect
  | _, [], loss_meter, events => (loss_meter, events)
  | i, b :: rest, loss_meter, events =>
      valLoop args modelF criterion training_iters (i + 1) rest
        (loss_meter.add (valBatchLoss args modelF criterion b))
        (events ++ valBatchEvents args modelF training_iters i b)

/-- Function `validate`: fresh meters, `model.eval()`, a `no_grad` pass with no
optimizer step, then a single `'Test/Loss'` scalar write of the final mean at
the caller-supplied step; returns the mean loss and the effect trace. -/
def validate (args : Args) (val_loader : List Batch) (modelF : List ℤ → ℤ → List ℤ)
    (criterion : List ℤ → List ℤ → ℚ) (training_iters : ℕ) : ℚ × List Effect :=
  let r := valLoop args modelF criterion training_iters 0 val_loader
    AverageValueMeter.reset [Effect.setMode false]
  let average_loss := r.1.mean
  (average_loss, r.2 ++ [Effect.scalarWrite "Test/Loss" average_loss training_iters])

/-- The per-batch criterion values of a validation pass, in batch order. -/
def valLosses (args : Args) (modelF : List ℤ → ℤ → List ℤ)
    (criterion : List ℤ → List ℤ → ℚ) (loader : List Batch) : List ℚ :=
  loader.map (valBatchLoss args modelF criterion)

/-! ### `evaluate_psnr_and_vgg_loss` (training.py, lines 147-202) -/

/-- The arithmetic mean of a list of rationals (`tensor.mean()`). -/
def listMean (l : List ℚ) : ℚ := l.sum / (l.length : ℚ)

/-- Models `psnr_calculator(denoised, clean).mean()`: the PSNR calculator returns a
per-sample score tensor whose mean is recorded. -/
def evalBatchPSNR (args : Args) (modelF : List ℤ → ℤ → List ℤ)
    (psnrCalc : List ℤ → List ℤ → List ℚ) (b : Batch) : ℚ :=
  listMean (psnrCalc (modelF (toDevice args.cuda b.noisy) (toDeviceScalar args.cuda b.iso))
    (toDevice args.cuda b.clean))

/-- Models `vgg_loss_calculator(denoised, clean)`: a scalar perceptual loss. -/
def evalBatchVGG (args : Args) (modelF : List ℤ → ℤ → List ℤ)
    (vggCalc : List ℤ → List ℤ → ℚ) (b : Batch) : ℚ :=
  vggCalc (modelF (toDevice args.cuda b.noisy) (toDeviceScalar args.cuda b.iso))
    (toDevice args.cuda b.clean)

/-- The evaluation loop: accumulates the PSNR meter and the VGG-loss meter;
it performs no sink writes and no optimizer step. -/
def evalLoop (args : Args) (modelF : List ℤ → ℤ → List ℤ)
    (psnrCalc : List ℤ → List ℤ → List ℚ) (vggCalc : List ℤ → List ℤ → ℚ) :
    List Batch → AverageValueMeter → AverageValueMeter → AverageValueMeter × AverageValueMeter
  | [], psnr_meter, vgg_loss_meter => (psnr_meter, vgg_loss_meter)
  | b :: rest, psnr_meter, vgg_loss_meter =>
      evalLoop args modelF psnrCalc vggCalc rest
        (psnr_meter.add (evalBatchPSNR args modelF psnrCalc b))
        (vgg_loss_meter.add (evalBatchVGG args modelF vggCalc b))

/-- Function `evaluate_psnr_and_vgg_loss`: fresh meters, `model.eval()`, a forward-only
pass; returns `(psnr_meter.mean, vgg_loss_meter.mean)` and a trace whose only
effect is the mode switch (results are printed, never written to the sink). -/
def evaluate_psnr_and_vgg_loss (args : Args) (modelF : List ℤ → ℤ → List ℤ)
    (psnrCalc : List ℤ → List ℤ → List ℚ) (vggCalc : List ℤ → List ℤ → ℚ)
    (data_loader : List Batch) : (ℚ × ℚ) × List Effect :=
  let r := evalLoop args modelF psnrCalc vggCalc data_loader
    AverageValueMeter.reset AverageValueMeter.reset
  ((r.1.mean, r.2.mean), [Effect.setMode false])

/-- The per-batch recorded PSNR values of an evaluation pass. -/
def evalPSNRs (args : Args) (modelF : List ℤ → ℤ → List ℤ)
    (psnrCalc : List ℤ → List ℤ → List ℚ) (loader : List Batch) : List ℚ :=
  loader.map (evalBatchPSNR args modelF psnrCalc)

/-- The per-batch recorded perceptual-loss values of an evaluation pass. -/
def evalVGGs (args : Args) (modelF : List ℤ → ℤ → List ℤ)
    (vggCalc : List ℤ → List ℤ → ℚ) (loader : List Batch) : List ℚ :=
  loader.map (evalBatchVGG args modelF vggCalc)

/-! ### `test` (testing.py, lines 9-43)

Paths are lists of components of an already-resolved absolute path
(`Path(...).resolve()`); `p.parent` is `dropLast`, `p.name` is the last
component, `p / s` is `p ++ [s]`.  The filesystem is a map from paths to
`file` / `dir` / `absent`, and `torch.load` succeeds exactly on existing
files.  `args.run_on_test[0]` and the optional `args.run_on_test[2]` are
passed as `chkArg` and `saveArg`; `args.run_on_test[1]` only feeds the test
dataset, which is passed as the already-built `loader` of
`(sample index, sample)` pairs.  Output files are tracked by name only (the
written pixel content is irrelevant to the properties below). -/

inductive FSKind where
  | file
  | dir
  | absent
  deriving DecidableEq

inductive TestError where
  /-- A hypothetical `NameError` from reading the never-assigned `model_args`
  local (the code in fact never reads `model_args`, so this error is never
  produced). -/
  | configUnbound
  /-- Raised by `torch.load` on a path that is not an existing file. -/
  | fileNotFound (p : List String)
  deriving DecidableEq

/-- A sample yielded by the test loader (no clean target). -/
structure TestSample where
  noisy : List ℤ
  iso : ℤ
  deriving DecidableEq

/-- The observable outcome of a `test` run.  `configPath` / `checkpointPath`
record the paths handed to the two `torch.load` calls (whether or not the load
succeeded; `none` when execution never reached that call); `savePath` is the
resolved output directory; `modelConstructed` and `filesWritten` are the side
effects that actually happened; `error` is the first uncaught exception. -/
structure TestResult where
  configPath : Option (List String)
  checkpointPath : Option (List String)
  savePath : Option (List String)
  modelConstructed : Bool
  filesWritten : List (List String)
  error : Option TestError
  deriving DecidableEq

/-- Models `name.split(".")[0]`: the characters of the file name up to the first
dot. -/
def baseName (s : String) : String := String.mk (s.data.takeWhile (fun c => c ≠ '.'))

/-- The output file name pattern of testing.py line 43. -/
def testImageFileName (img_no : ℕ) : String := "Test_Image_" ++ toString img_no ++ ".png"

/-- testing.py lines 16-43: everything after the file/dir branch.
`configPath` is the config file the branch loaded (`none` when the branch fell
through with `model_args` left unbound), `model_path` the checkpoint path the
branch settled on.  Computes `save_path`, loads the checkpoint, constructs the
model and writes one `Test_Image_<index>.png` per loader sample. -/
def testAfterBranch (fs : List String → FSKind) (configPath : Option (List String))
    (model_path : List String) (saveArg : Option (List String))
    (loader : List (ℕ × TestSample)) : TestResult :=
  let save_path :=
    match saveArg with
    | some p => p
    | none => model_path.dropLast ++ [baseName (model_path.getLastD "")]
  if fs model_path = FSKind.file then
    { configPath := configPath, checkpointPath := some model_path,
      savePath := some save_path, modelConstructed := true,
      filesWritten := loader.map (fun s => save_path ++ [testImageFileName s.1]),
      error := none }
  else
    { configPath := configPath, checkpointPath := some model_path,
      savePath := some save_path, modelConstructed := false,
      filesWritten := [], error := some (TestError.fileNotFound model_path) }

/-- A branch of testing.py lines 11-15 that loads `denoising.config` from
`configPath` before continuing with checkpoint path `model_path`. -/
def testAfterConfig (fs : List String → FSKind) (configPath model_path : List String)
    (saveArg : Option (List String)) (loader : List (ℕ × TestSample)) : TestResult :=
  if fs configPath = FSKind.file then
    testAfterBranch fs (some configPath) model_path saveArg loader
  else
    { configPath := some configPath, checkpointPath := none, savePath := none,
      modelConstructed := false, filesWritten := [],
      error := some (TestError.fileNotFound configPath) }

/-- Function `test`: resolves the checkpoint layout (testing.py lines 10-15) and runs
the rest of the function.  When `chkArg` is neither a file nor a directory,
both branches are skipped — `model_args` stays unbound but is never read — and
execution continues straight to the checkpoint load. -/
def test (fs : List String → FSKind) (chkArg : List String)
    (saveArg : Option (List String)) (loader : List (ℕ × TestSample)) : TestResult :=
  match fs chkArg with
  | FSKind.file =>
      testAfterConfig fs (chkArg.dropLast ++ ["denoising.config"]) chkArg saveArg loader
  | FSKind.dir =>
      testAfterConfig fs (chkArg ++ ["denoising.config"])
        (chkArg ++ ["model_best.pth.tar"]) saveArg loader
  | FSKind.absent => testAfterBranch fs none chkArg saveArg loader

/-! ### Spec-side event lists

One-pass unrollings of the loop traces, used to state the properties. -/

/-- The effects of a training pass over the remaining batches, starting at
batch index `i`. -/
def trainEventsFrom (args : Args) (modelF : ℕ → List ℤ → ℤ → List ℤ)
    (criterion : List ℤ → List ℤ → ℚ) (epoch steps : ℕ) : ℕ → List Batch → List Effect
  | _, [] => []
  | i, b :: rest =>
      trainBatchEvents args modelF criterion epoch steps i b ++
        trainEventsFrom args modelF criterion epoch steps (i + 1) rest

/-- The effects of a validation pass over the remaining batches, starting at
batch index `i` (the final `'Test/Loss'` write is not part of the loop). -/
def valEventsFrom (args : Args) (modelF : List ℤ → ℤ → List ℤ)
    (training_iters : ℕ) : ℕ → List Batch → List Effect
  | _, [] => []
  | i, b :: rest =>
      valBatchEvents args modelF training_iters i b ++
        valEventsFrom args modelF training_iters (i + 1) rest

/-! ### Concrete example inputs (used by witnesses and counterexamples) -/

/-- Batch size 1, log count 2: image logging is skipped. -/
def exArgs : Args :=
  { cuda := false, train_batch_size := 1, test_batch_size := 1, num_samples_to_log := 2 }

/-- Batch size 2, log count 1: image logging happens on the first batch. -/
def exArgsLog : Args :=
  { cuda := false, train_batch_size := 2, test_batch_size := 2, num_samples_to_log := 1 }

/-- A training-side model whose forward pass returns the noisy input
unchanged, at every optimizer-step count. -/
def exModelF : ℕ → List ℤ → ℤ → List ℤ := fun _ noisy _ => noisy

/-- A validation/evaluation-side model returning the noisy input unchanged. -/
def exModelV : List ℤ → ℤ → List ℤ := fun noisy _ => noisy

/-- A criterion reading the loss off the first entry of the clean tensor. -/
def exCriterion : List ℤ → List ℤ → ℚ := fun _ clean => ((clean.headD 0 : ℤ) : ℚ)

/-- A PSNR calculator yielding one per-sample score per batch. -/
def exPsnrCalc : List ℤ → List ℤ → List ℚ := fun _ clean => [((clean.headD 0 : ℤ) : ℚ)]

/-- Batch with criterion value 1 under `exCriterion`. -/
def exBatch1 : Batch := { noisy := [10], clean := [1], iso := 0 }

/-- Batch with criterion value 3 under `exCriterion`. -/
def exBatch2 : Batch := { noisy := [20], clean := [3], iso := 0 }

/-- A batch of (configured) size 2 for the image-logging witness. -/
def exBatchLog : Batch := { noisy := [5, 6], clean := [7, 8], iso := 0 }

/-- A filesystem containing the checkpoint file `/d/m.pth` and its sibling
configuration `/d/denoising.config`. -/
def exFS : List String → FSKind := fun p =>
  if p = ["d", "m.pth"] then FSKind.file
  else if p = ["d", "denoising.config"] then FSKind.file
  else FSKind.absent

/-- A filesystem containing the checkpoint directory `/d` with
`/d/denoising.config` and `/d/model_best.pth.tar` inside it. -/
def exFSDir : List String → FSKind := fun p =>
  if p = ["d"] then FSKind.dir
  else if p = ["d", "denoising.config"] then FSKind.file
  else if p = ["d", "model_best.pth.tar"] then FSKind.file
  else FSKind.absent

/-- An empty filesystem: every path is absent. -/
def exAbsentFS : List String → FSKind := fun _ => FSKind.absent

/-- A one-sample test loader with sample index 0. -/
def exLoader : List (ℕ × TestSample) := [(0, { noisy := [1], iso := 2 })]

/-! ### Helper lemmas: trace projections -/

@[simp] lemma toDevice_eq (c : Bool) (t : List ℤ) : toDevice c t = t := rfl

@[simp] lemma toDeviceScalar_eq (c : Bool) (x : ℤ) : toDeviceScalar c x = x := rfl

@[simp] lemma scalarEvents_nil : scalarEvents [] = [] := rfl

@[simp] lemma imageWrites_nil : imageWrites [] = [] := rfl

@[simp] lemma scalarEvents_append (a b : List Effect) :
    scalarEvents (a ++ b) = scalarEvents a ++ scalarEvents b :=
  List.filterMap_append a b Effect.scalarView

@[simp] lemma imageWrites_append (a b : List Effect) :
    imageWrites (a ++ b) = imageWrites a ++ imageWrites b :=
  List.filterMap_append a b Effect.imageView

@[simp] lemma scalarEvents_cons_scalar (t : String) (v : ℚ) (s : ℕ) (es : List Effect) :
    scalarEvents (Effect.scalarWrite t v s :: es) = (t, v, s) :: scalarEvents es := rfl

@[simp] lemma scalarEvents_cons_image (t : String) (g : List ℤ) (s : ℕ) (es : List Effect) :
    scalarEvents (Effect.imageWrite t g s :: es) = scalarEvents es := rfl

@[simp] lemma scalarEvents_cons_optim (es : List Effect) :
    scalarEvents (Effect.optimStep :: es) = scalarEvents es := rfl

@[simp] lemma scalarEvents_cons_mode (m : Bool) (es : List Effect) :
    scalarEvents (Effect.setMode m :: es) = scalarEvents es := rfl

@[simp] lemma imageWrites_cons_scalar (t : String) (v : ℚ) (s : ℕ) (es : List Effect) :
    imageWrites (Effect.scalarWrite t v s :: es) = imageWrites es := rfl

@[simp] lemma imageWrites_cons_image (t : String) (g : List ℤ) (s : ℕ) (es : List Effect) :
    imageWrites (Effect.imageWrite t g s :: es) = (t, g, s) :: imageWrites es := rfl

@[simp] lemma imageWrites_cons_optim (es : List Effect) :
    imageWrites (Effect.optimStep :: es) = imageWrites es := rfl

@[simp] lemma imageWrites_cons_mode (m : Bool) (es : List Effect) :
    imageWrites (Effect.setMode m :: es) = imageWrites es := rfl

@[simp] lemma scalarEvents_log_images (a b c : List ℤ) (n t : ℕ) :
    scalarEvents (log_images a b c n t) = [] := rfl

@[simp] lemma imageWrites_log_images (a b c : List ℤ) (n t : ℕ) :
    imageWrites (log_images a b c n t) =
      [("noisy_images", a.take n, t), ("denoised_images", b.take n, t),
       ("clean_images", c.take n, t)] := rfl

@[simp] lemma optimStep_not_mem_log_images (a b c : List ℤ) (n t : ℕ) :
    Effect.optimStep ∉ log_images a b c n t := by
  simp [log_images]

/-! ### Helper lemmas: `train` closed forms -/

lemma trainLoop_fst (args : Args) (modelF : ℕ → List ℤ → ℤ → List ℤ)
    (criterion : List ℤ → List ℤ → ℚ) (epoch steps : ℕ) :
    ∀ (l : List Batch) (i : ℕ) (m : AverageValueMeter) (es : List Effect),
      (trainLoop args modelF criterion epoch steps i l m es).1 =
        { n := m.n + l.length,
          sum := m.sum + (trainLosses args modelF criterion i l).sum } := by
  intro l
  induction l with
  | nil => intro i m es; simp [trainLoop, trainLosses]
  | cons b rest ih =>
      intro i m es
      simp only [trainLoop, trainLosses, List.length_cons, List.sum_cons, ih,
        AverageValueMeter.add, AverageValueMeter.mk.injEq]
      exact ⟨by omega, by ring⟩

lemma trainLoop_snd (args : Args) (modelF : ℕ → List ℤ → ℤ → List ℤ)
    (criterion : List ℤ → List ℤ → ℚ) (epoch steps : ℕ) :
    ∀ (l : List Batch) (i : ℕ) (m : AverageValueMeter) (es : List Effect),
      (trainLoop args modelF criterion epoch steps i l m es).2 =
        es ++ trainEventsFrom args modelF criterion epoch steps i l := by
  intro l
  induction l with
  | nil => intro i m es; simp [trainLoop, trainEventsFrom]
  | cons b rest ih =>
      intro i m es
      simp only [trainLoop, trainEventsFrom, ih, List.append_assoc]

lemma trainLosses_length (args : Args) (modelF : ℕ → List ℤ → ℤ → List ℤ)
    (criterion : List ℤ → List ℤ → ℚ) :
    ∀ (l : List Batch) (i : ℕ),
      (trainLosses args modelF criterion i l).length = l.length := by
  intro l
  induction l with
  | nil => intro i; rfl
  | cons b rest ih => intro i; simp [trainLosses, ih]

lemma scalarEvents_trainBatchEvents (args : Args) (modelF : ℕ → List ℤ → ℤ → List ℤ)
    (criterion : List ℤ → List ℤ → ℚ) (epoch steps i : ℕ) (b : Batch) :
    scalarEvents (trainBatchEvents args modelF criterion epoch steps i b) =
      [("Train/Loss", batchLoss args modelF criterion i b, stepIndex epoch steps i)] := by
  by_cases h : i = 0
  · by_cases h2 : args.num_samples_to_log ≤ args.train_batch_size <;>
      simp [trainBatchEvents, h, h2]
  · simp [trainBatchEvents, h]

lemma scalarEvents_trainEventsFrom (args : Args) (modelF : ℕ → List ℤ → ℤ → List ℤ)
    (criterion : List ℤ → List ℤ → ℚ) (epoch steps : ℕ) :
    ∀ (l : List Batch) (i : ℕ),
      scalarEvents (trainEventsFrom args modelF criterion epoch steps i l) =
        (List.enumFrom i l).map
          (fun p => ("Train/Loss", batchLoss args modelF criterion p.1 p.2,
            stepIndex epoch steps p.1)) := by
  intro l
  induction l with
  | nil => intro i; rfl
  | cons b rest ih =>
      intro i
      simp [trainEventsFrom, scalarEvents_trainBatchEvents, ih, List.enumFrom_cons]

lemma imageWrites_trainEventsFrom_succ (args : Args) (modelF : ℕ → List ℤ → ℤ → List ℤ)
    (criterion : List ℤ → List ℤ → ℚ) (epoch steps : ℕ) :
    ∀ (l : List Batch) (i : ℕ),
      imageWrites (trainEventsFrom args modelF criterion epoch steps (i + 1) l) = [] := by
  intro l
  induction l with
  | nil => intro i; rfl
  | cons b rest ih =>
      intro i
      simp [trainEventsFrom, trainBatchEvents, ih]

/-- The scalar sink writes of a full training pass: one `'Train/Loss'` write
per batch, carrying the raw batch loss, at step `epoch * steps + i`. -/
lemma train_scalarEvents (args : Args) (train_loader : List Batch)
    (modelF : ℕ → List ℤ → ℤ → List ℤ) (criterion : List ℤ → List ℤ → ℚ) (epoch : ℕ) :
    scalarEvents (train args train_loader modelF criterion epoch).2 =
      (List.enumFrom 0 train_loader).map
        (fun p => ("Train/Loss", batchLoss args modelF criterion p.1 p.2,
          stepIndex epoch train_loader.length p.1)) := by
  simp [train, trainLoop_snd, scalarEvents_trainEventsFrom]

/-- The image sink writes of a full training pass all come from the first
batch. -/
lemma train_imageWrites (args : Args) (b : Batch) (rest : List Batch)
    (modelF : ℕ → List ℤ → ℤ → List ℤ) (criterion : List ℤ → List ℤ → ℚ) (epoch : ℕ) :
    imageWrites (train args (b :: rest) modelF criterion epoch).2 =
      (if args.num_samples_to_log ≤ args.train_batch_size then
        [("noisy_images", b.noisy.take args.num_samples_to_log,
            stepIndex epoch (b :: rest).length 0),
         ("denoised_images", (modelF 0 b.noisy b.iso).take args.num_samples_to_log,
            stepIndex epoch (b :: rest).length 0),
         ("clean_images", b.clean.take args.num_samples_to_log,
            stepIndex epoch (b :: rest).length 0)]
      else []) := by
  by_cases h2 : args.num_samples_to_log ≤ args.train_batch_size <;>
    simp [train, trainLoop_snd, trainEventsFrom, trainBatchEvents, h2,
      imageWrites_trainEventsFrom_succ]

lemma enumFrom_map_comp_fst (g : ℕ → ℕ) :
    ∀ (l : List Batch) (i : ℕ),
      ((List.enumFrom i l).map (fun p => g p.1)) = (List.range' i l.length).map g := by
  intro l
  induction l with
  | nil => intro i; rfl
  | cons b rest ih =>
      intro i
      simp [List.enumFrom_cons, List.range'_succ, ih]

/-! ### Helper lemmas: `validate` closed forms -/

lemma valLoop_fst (args : Args) (modelF : List ℤ → ℤ → List ℤ)
    (criterion : List ℤ → List ℤ → ℚ) (training_iters : ℕ) :
    ∀ (l : List Batch) (i : ℕ) (m : AverageValueMeter) (es : List Effect),
      (valLoop args modelF criterion training_iters i l m es).1 =
        { n := m.n + l.length,
          sum := m.sum + (valLosses args modelF criterion l).sum } := by
  intro l
  induction l with
  | nil => intro i m es; simp [valLoop, valLosses]
  | cons b rest ih =>
      intro i m es
      simp only [valLoop, valLosses, List.map_cons, List.length_cons, List.sum_cons, ih,
        AverageValueMeter.add, AverageValueMeter.mk.injEq]
      exact ⟨by omega, by ring⟩

lemma valLoop_snd (args : Args) (modelF : List ℤ → ℤ → List ℤ)
    (criterion : List ℤ → List ℤ → ℚ) (training_iters : ℕ) :
    ∀ (l : List Batch) (i : ℕ) (m : AverageValueMeter) (es : List Effect),
      (valLoop args modelF criterion training_iters i l m es).2 =
        es ++ valEventsFrom args modelF training_iters i l := by
  intro l
  induction l with
  | nil => intro i m es; simp [valLoop, valEventsFrom]
  | cons b rest ih =>
      intro i m es
      simp only [valLoop, valEventsFrom, ih, List.append_assoc]

lemma scalarEvents_valEventsFrom (args : Args) (modelF : List ℤ → ℤ → List ℤ)
    (training_iters : ℕ) :
    ∀ (l : List Batch) (i : ℕ),
      scalarEvents (valEventsFrom args modelF training_iters i l) = [] := by
  intro l
  induction l with
  | nil => intro i; rfl
  | cons b rest ih =>
      intro i
      by_cases h : i = 0
      · by_cases h2 : args.num_samples_to_log ≤ args.test_batch_size <;>
          simp [valEventsFrom, valBatchEvents, h, h2, ih]
      · simp [valEventsFrom, valBatchEvents, h, ih]

lemma imageWrites_valEventsFrom_skip (args : Args) (modelF : List ℤ → ℤ → List ℤ)
    (training_iters : ℕ) (hn : ¬ args.num_samples_to_log ≤ args.test_batch_size) :
    ∀ (l : List Batch) (i : ℕ),
      imageWrites (valEventsFrom args modelF training_iters i l) = [] := by
  intro l
  induction l with
  | nil => intro i; rfl
  | cons b rest ih =>
      intro i
      by_cases h : i = 0 <;> simp [valEventsFrom, valBatchEvents, h, hn, ih]

lemma optimStep_not_mem_valEventsFrom (args : Args) (modelF : List ℤ → ℤ → List ℤ)
    (training_iters : ℕ) :
    ∀ (l : List Batch) (i : ℕ),
      Effect.optimStep ∉ valEventsFrom args modelF training_iters i l := by
  intro l
  induction l with
  | nil => intro i; simp [valEventsFrom]
  | cons b rest ih =>
      intro i
      by_cases h : i = 0
      · by_cases h2 : args.num_samples_to_log ≤ args.test_batch_size <;>
          simp [valEventsFrom, valBatchEvents, h, h2, ih]
      · simp [valEventsFrom, valBatchEvents, h, ih]

/-! ### Helper lemmas: `evaluate_psnr_and_vgg_loss` closed forms -/

lemma evalLoop_fst (args : Args) (modelF : List ℤ → ℤ → List ℤ)
    (psnrCalc : List ℤ → List ℤ → List ℚ) (vggCalc : List ℤ → List ℤ → ℚ) :
    ∀ (l : List Batch) (pm vm : AverageValueMeter),
      (evalLoop args modelF psnrCalc vggCalc l pm vm).1 =
        { n := pm.n + l.length,
          sum := pm.sum + (evalPSNRs args modelF psnrCalc l).sum } := by
  intro l
  induction l with
  | nil => intro pm vm; simp [evalLoop, evalPSNRs]
  | cons b rest ih =>
      intro pm vm
      simp only [evalLoop, evalPSNRs, List.map_cons, List.length_cons, List.sum_cons, ih,
        AverageValueMeter.add, AverageValueMeter.mk.injEq]
      exact ⟨by omega, by ring⟩

lemma evalLoop_snd (args : Args) (modelF : List ℤ → ℤ → List ℤ)
    (psnrCalc : List ℤ → List ℤ → List ℚ) (vggCalc : List ℤ → List ℤ → ℚ) :
    ∀ (l : List Batch) (pm vm : AverageValueMeter),
      (evalLoop args modelF psnrCalc vggCalc l pm vm).2 =
        { n := vm.n + l.length,
          sum := vm.sum + (evalVGGs args modelF vggCalc l).sum } := by
  intro l
  induction l with
  | nil => intro pm vm; simp [evalLoop, evalVGGs]
  | cons b rest ih =>
      intro pm vm
      simp only [evalLoop, evalVGGs, List.map_cons, List.length_cons, List.sum_cons, ih,
        AverageValueMeter.add, AverageValueMeter.mk.injEq]
      exact ⟨by omega, by ring⟩


/-! ## Claim theorems -/

/-- C1: over a loader yielding batch losses `v1..vk` (`k >= 1`), `train`
iterates each batch exactly once (one criterion value per batch) and returns
the arithmetic mean `(v1+...+vk)/k`, accumulated in a loss meter started from
zero for this call. -/
theorem C1_train_returns_mean (args : Args) (modelF : ℕ → List ℤ → ℤ → List ℤ)
    (criterion : List ℤ → List ℤ → ℚ) (epoch : ℕ) (train_loader : List Batch)
    (h : train_loader ≠ []) :
    (trainLosses args modelF criterion 0 train_loader).length = train_loader.length ∧
    (train args train_loader modelF criterion epoch).1 =
      (trainLosses args modelF criterion 0 train_loader).sum / (train_loader.length : ℚ) := by
  constructor
  · exact trainLosses_length args modelF criterion train_loader 0
  · simp [train, trainLoop_fst, AverageValueMeter.mean, AverageValueMeter.reset]

/-- C1 witness: a concrete two-batch pass. -/
theorem C1_witness :
    (trainLosses exArgs exModelF exCriterion 0 [exBatch1, exBatch2]).length = 2 ∧
    (train exArgs [exBatch1, exBatch2] exModelF exCriterion 0).1 =
      (trainLosses exArgs exModelF exCriterion 0 [exBatch1, exBatch2]).sum /
        (([exBatch1, exBatch2] : List Batch).length : ℚ) := by
  have h := C1_train_returns_mean exArgs exModelF exCriterion 0 [exBatch1, exBatch2]
    (List.cons_ne_nil _ _)
  exact ⟨h.1, h.2⟩

/-- C2: in `train`, image grids are emitted only on the first batch; when
`num_samples_to_log <= train_batch_size` the three first-batch grids each hold
exactly `num_samples_to_log` samples and no later batch emits any, and when
`num_samples_to_log > train_batch_size` no image write happens in the whole
pass.  The batch tensors are assumed to actually have the configured batch
size. -/
theorem C2_first_batch_image_logging (args : Args) (modelF : ℕ → List ℤ → ℤ → List ℤ)
    (criterion : List ℤ → List ℤ → ℚ) (epoch : ℕ) (b : Batch) (rest : List Batch)
    (hn : b.noisy.length = args.train_batch_size)
    (hc : b.clean.length = args.train_batch_size)
    (hd : (modelF 0 b.noisy b.iso).length = args.train_batch_size) :
    (args.num_samples_to_log ≤ args.train_batch_size →
      imageWrites (train args (b :: rest) modelF criterion epoch).2 =
        [("noisy_images", b.noisy.take args.num_samples_to_log,
            stepIndex epoch (b :: rest).length 0),
         ("denoised_images", (modelF 0 b.noisy b.iso).take args.num_samples_to_log,
            stepIndex epoch (b :: rest).length 0),
         ("clean_images", b.clean.take args.num_samples_to_log,
            stepIndex epoch (b :: rest).length 0)] ∧
      (b.noisy.take args.num_samples_to_log).length = args.num_samples_to_log ∧
      ((modelF 0 b.noisy b.iso).take args.num_samples_to_log).length =
        args.num_samples_to_log ∧
      (b.clean.take args.num_samples_to_log).length = args.num_samples_to_log) ∧
    (args.train_batch_size < args.num_samples_to_log →
      imageWrites (train args (b :: rest) modelF criterion epoch).2 = []) := by
  constructor
  · intro hcond
    refine ⟨?_, ?_, ?_, ?_⟩
    · rw [train_imageWrites]
      simp [hcond]
    · simp [List.length_take, hn]
      omega
    · simp [List.length_take, hd]
      omega
    · simp [List.length_take, hc]
      omega
  · intro hcond
    rw [train_imageWrites]
    simp [Nat.not_le.mpr hcond]

/-- C2 witness: batch size 2, log count 1 — three first-batch grids of one
sample each. -/
theorem C2_witness :
    imageWrites (train exArgsLog [exBatchLog] exModelF exCriterion 0).2 =
      [("noisy_images", [5], 0), ("denoised_images", [5], 0), ("clean_images", [7], 0)] := by
  have h := (C2_first_batch_image_logging exArgsLog exModelF exCriterion 0 exBatchLog []
    rfl rfl rfl).1 (by decide)
  exact h.1

/-- C3 counterexample: the scalar written at step 1 of a pass with batch
losses `[1, 3]` is the raw second-batch loss `3`, not the running mean
`(1 + 3) / 2 = 2` the claim requires. -/
theorem C3_counterexample :
    scalarEvents (train exArgs [exBatch1, exBatch2] exModelF exCriterion 0).2 =
      [("Train/Loss", 1, 0), ("Train/Loss", 3, 1)] ∧
    ((1 : ℚ) + 3) / 2 ≠ 3 := by
  constructor
  · rfl
  · norm_num

/-- C3 (amended): the scalar value written to the sink at step
`epoch * steps_per_epoch + i` is the raw loss of batch `i` (its criterion
value), not the running mean. -/
theorem C3_scalar_writes_raw_loss (args : Args) (modelF : ℕ → List ℤ → ℤ → List ℤ)
    (criterion : List ℤ → List ℤ → ℚ) (epoch : ℕ) (train_loader : List Batch) :
    scalarEvents (train args train_loader modelF criterion epoch).2 =
      (List.enumFrom 0 train_loader).map
        (fun p => ("Train/Loss", batchLoss args modelF criterion p.1 p.2,
          stepIndex epoch train_loader.length p.1)) :=
  train_scalarEvents args train_loader modelF criterion epoch

/-- C4: the `i`-th training scalar write carries step
`epoch * steps_per_epoch + i`, every training image write carries step
`epoch * steps_per_epoch + 0`, and for fixed `steps_per_epoch` the step index
strictly increases across consecutive batches and across an epoch
boundary. -/
theorem C4_step_indices (args : Args) (modelF : ℕ → List ℤ → ℤ → List ℤ)
    (criterion : List ℤ → List ℤ → ℚ) (epoch : ℕ) (train_loader : List Batch)
    (h : train_loader ≠ []) :
    (scalarEvents (train args train_loader modelF criterion epoch).2).map (fun p => p.2.2) =
      (List.range train_loader.length).map (stepIndex epoch train_loader.length) ∧
    (∀ q ∈ imageWrites (train args train_loader modelF criterion epoch).2,
        q.2.2 = stepIndex epoch train_loader.length 0) ∧
    (∀ e i : ℕ, stepIndex e train_loader.length i < stepIndex e train_loader.length (i + 1)) ∧
    stepIndex epoch train_loader.length (train_loader.length - 1) <
      stepIndex (epoch + 1) train_loader.length 0 := by
  refine ⟨?_, ?_, ?_, ?_⟩
  · rw [train_scalarEvents, List.map_map, List.range_eq_range']
    exact enumFrom_map_comp_fst (stepIndex epoch train_loader.length) train_loader 0
  · cases train_loader with
    | nil => exact absurd rfl h
    | cons b rest =>
        intro q hq
        rw [train_imageWrites] at hq
        by_cases h2 : args.num_samples_to_log ≤ args.train_batch_size
        · simp only [h2, if_true, List.mem_cons, List.not_mem_nil, or_false] at hq
          rcases hq with h3 | h3 | h3 <;> simp [h3]
        · simp [h2] at hq
  · intro e i
    exact Nat.add_lt_add_left (Nat.lt_succ_self i) _
  · have hs : 0 < train_loader.length := List.length_pos.mpr h
    calc
      stepIndex epoch train_loader.length (train_loader.length - 1)
          < epoch * train_loader.length + train_loader.length :=
        Nat.add_lt_add_left (Nat.sub_lt hs Nat.one_pos) _
      _ = stepIndex (epoch + 1) train_loader.length 0 := by
        simp only [stepIndex]
        ring

/-- C4 witness: a concrete two-batch pass at epoch 0. -/
theorem C4_witness :
    (scalarEvents (train exArgs [exBatch1, exBatch2] exModelF exCriterion 0).2).map
        (fun p => p.2.2) =
      (List.range ([exBatch1, exBatch2] : List Batch).length).map
        (stepIndex 0 ([exBatch1, exBatch2] : List Batch).length) ∧
    stepIndex 0 2 0 < stepIndex 0 2 1 ∧
    stepIndex 0 2 1 < stepIndex 1 2 0 := by
  obtain ⟨h1, h2, h3, h4⟩ := C4_step_indices exArgs exModelF exCriterion 0
    [exBatch1, exBatch2] (List.cons_ne_nil _ _)
  exact ⟨h1, h3 0 0, h4⟩


/-- C5: `validate` switches the model to evaluation mode, performs no
optimizer step, and returns the mean of the per-batch losses; when
`test_batch_size < num_samples_to_log` the pass writes no image grid and
exactly one scalar — the final mean under the `'Test/Loss'` tag at the
caller-supplied step. -/
theorem C5_validate_pass (args : Args) (modelF : List ℤ → ℤ → List ℤ)
    (criterion : List ℤ → List ℤ → ℚ) (training_iters : ℕ) (val_loader : List Batch)
    (h : val_loader ≠ []) :
    ((validate args val_loader modelF criterion training_iters).2).head? =
      some (Effect.setMode false) ∧
    Effect.optimStep ∉ (validate args val_loader modelF criterion training_iters).2 ∧
    (valLosses args modelF criterion val_loader).length = val_loader.length ∧
    (validate args val_loader modelF criterion training_iters).1 =
      (valLosses args modelF criterion val_loader).sum / (val_loader.length : ℚ) ∧
    (args.test_batch_size < args.num_samples_to_log →
      imageWrites (validate args val_loader modelF criterion training_iters).2 = [] ∧
      scalarEvents (validate args val_loader modelF criterion training_iters).2 =
        [("Test/Loss", (validate args val_loader modelF criterion training_iters).1,
          training_iters)]) := by
  refine ⟨?_, ?_, ?_, ?_, ?_⟩
  · simp [validate, valLoop_snd]
  · simp [validate, valLoop_snd, optimStep_not_mem_valEventsFrom]
  · simp [valLosses]
  · simp [validate, valLoop_fst, AverageValueMeter.mean, AverageValueMeter.reset]
  · intro hcond
    have hn : ¬ args.num_samples_to_log ≤ args.test_batch_size := Nat.not_le.mpr hcond
    constructor
    · simp [validate, valLoop_snd, imageWrites_valEventsFrom_skip args modelF training_iters hn]
    · simp [validate, valLoop_snd, scalarEvents_valEventsFrom]

/-- C5 witness: two batches, batch size 1 below log count 2. -/
theorem C5_witness :
    (validate exArgs [exBatch1, exBatch2] exModelV exCriterion 7).1 =
      (valLosses exArgs exModelV exCriterion [exBatch1, exBatch2]).sum /
        (([exBatch1, exBatch2] : List Batch).length : ℚ) ∧
    imageWrites (validate exArgs [exBatch1, exBatch2] exModelV exCriterion 7).2 = [] ∧
    scalarEvents (validate exArgs [exBatch1, exBatch2] exModelV exCriterion 7).2 =
      [("Test/Loss", (validate exArgs [exBatch1, exBatch2] exModelV exCriterion 7).1, 7)] := by
  obtain ⟨-, -, -, h4, h5⟩ := C5_validate_pass exArgs exModelV exCriterion 7
    [exBatch1, exBatch2] (List.cons_ne_nil _ _)
  obtain ⟨h6, h7⟩ := h5 (by decide)
  exact ⟨h4, h6, h7⟩

/-- C6: `evaluate_psnr_and_vgg_loss` performs no logging-sink write and
returns the pair of mean PSNR and mean perceptual loss; on a one-batch
dataset it returns exactly that batch's computed values. -/
theorem C6_evaluate_no_sink_writes (args : Args) (modelF : List ℤ → ℤ → List ℤ)
    (psnrCalc : List ℤ → List ℤ → List ℚ) (vggCalc : List ℤ → List ℤ → ℚ)
    (data_loader : List Batch) (h : data_loader ≠ []) :
    (∀ e ∈ (evaluate_psnr_and_vgg_loss args modelF psnrCalc vggCalc data_loader).2,
        Effect.isSinkWrite e = false) ∧
    (evaluate_psnr_and_vgg_loss args modelF psnrCalc vggCalc data_loader).1.1 =
      (evalPSNRs args modelF psnrCalc data_loader).sum / (data_loader.length : ℚ) ∧
    (evaluate_psnr_and_vgg_loss args modelF psnrCalc vggCalc data_loader).1.2 =
      (evalVGGs args modelF vggCalc data_loader).sum / (data_loader.length : ℚ) ∧
    ∀ b : Batch, (evaluate_psnr_and_vgg_loss args modelF psnrCalc vggCalc [b]).1 =
      (evalBatchPSNR args modelF psnrCalc b, evalBatchVGG args modelF vggCalc b) := by
  refine ⟨?_, ?_, ?_, ?_⟩
  · intro e he
    simp only [evaluate_psnr_and_vgg_loss, List.mem_singleton] at he
    subst he
    rfl
  · simp [evaluate_psnr_and_vgg_loss, evalLoop_fst, AverageValueMeter.mean,
      AverageValueMeter.reset]
  · simp [evaluate_psnr_and_vgg_loss, evalLoop_snd, AverageValueMeter.mean,
      AverageValueMeter.reset]
  · intro b
    simp [evaluate_psnr_and_vgg_loss, evalLoop, AverageValueMeter.mean,
      AverageValueMeter.reset, AverageValueMeter.add]

/-- C6 witness: a one-batch evaluation. -/
theorem C6_witness :
    (evaluate_psnr_and_vgg_loss exArgs exModelV exPsnrCalc exCriterion [exBatch1]).1 =
      (evalBatchPSNR exArgs exModelV exPsnrCalc exBatch1,
       evalBatchVGG exArgs exModelV exCriterion exBatch1) := by
  obtain ⟨-, -, -, h4⟩ := C6_evaluate_no_sink_writes exArgs exModelV exPsnrCalc exCriterion
    [exBatch1] (List.cons_ne_nil _ _)
  exact h4 exBatch1

/-- C9: every `log_images` call produces exactly three sink entries — image
grids tagged `'noisy_images'`, `'denoised_images'`, `'clean_images'`, each
holding the first `n_samples` samples of its tensor at the same step — and no
scalar entry. -/
theorem C9_log_images_three_grids (noisy_image denoised_image clean_image : List ℤ)
    (n_samples training_iters : ℕ) :
    (log_images noisy_image denoised_image clean_image n_samples training_iters).length = 3 ∧
    imageWrites (log_images noisy_image denoised_image clean_image n_samples training_iters) =
      [("noisy_images", noisy_image.take n_samples, training_iters),
       ("denoised_images", denoised_image.take n_samples, training_iters),
       ("clean_images", clean_image.take n_samples, training_iters)] ∧
    scalarEvents (log_images noisy_image denoised_image clean_image n_samples training_iters) =
      [] :=
  ⟨rfl, rfl, rfl⟩

/-- The files written by the tail of `test`, given that it finished without
raising. -/
lemma testAfterBranch_files (fs : List String → FSKind) (configPath : Option (List String))
    (model_path : List String) (saveArg : Option (List String))
    (loader : List (ℕ × TestSample)) (sp : List String)
    (hsp : (testAfterBranch fs configPath model_path saveArg loader).savePath = some sp)
    (he : (testAfterBranch fs configPath model_path saveArg loader).error = none) :
    (testAfterBranch fs configPath model_path saveArg loader).filesWritten =
      loader.map (fun s => sp ++ [testImageFileName s.1]) := by
  by_cases hmp : fs model_path = FSKind.file
  · simp only [testAfterBranch, hmp, if_pos] at hsp ⊢
    simp only [Option.some.injEq] at hsp
    rw [hsp]
  · simp [testAfterBranch, hmp] at he

/-- C7: checkpoint layout resolution of `test`: an existing checkpoint file
reads its configuration from the sibling `denoising.config`; an existing
checkpoint directory reads `denoising.config` inside it and defaults the
checkpoint to `model_best.pth.tar` inside it; with no explicit output path the
output directory is the sibling folder named after the checkpoint file's base
name. -/
theorem C7_checkpoint_layout (fs : List String → FSKind) (chk : List String)
    (loader : List (ℕ × TestSample)) :
    (fs chk = FSKind.file →
      fs (chk.dropLast ++ ["denoising.config"]) = FSKind.file →
      (test fs chk none loader).configPath = some (chk.dropLast ++ ["denoising.config"]) ∧
      (test fs chk none loader).checkpointPath = some chk ∧
      (test fs chk none loader).savePath =
        some (chk.dropLast ++ [baseName (chk.getLastD "")])) ∧
    (fs chk = FSKind.dir →
      fs (chk ++ ["denoising.config"]) = FSKind.file →
      (test fs chk none loader).configPath = some (chk ++ ["denoising.config"]) ∧
      (test fs chk none loader).checkpointPath = some (chk ++ ["model_best.pth.tar"]) ∧
      (test fs chk none loader).savePath = some (chk ++ ["model_best"])) := by
  have hb : baseName "model_best.pth.tar" = "model_best" := rfl
  constructor
  · intro hf hcfg
    simp [test, hf, testAfterConfig, hcfg, testAfterBranch]
  · intro hd hcfg
    by_cases hmp : fs (chk ++ ["model_best.pth.tar"]) = FSKind.file <;>
      simp [test, hd, testAfterConfig, hcfg, testAfterBranch, hmp,
        List.dropLast_concat, List.getLastD_concat, hb]

/-- C7 witness: a concrete checkpoint file and a concrete checkpoint
directory. -/
theorem C7_witness :
    (test exFS ["d", "m.pth"] none exLoader).savePath = some ["d", "m"] ∧
    (test exFSDir ["d"] none exLoader).checkpointPath =
      some ["d", "model_best.pth.tar"] ∧
    (test exFSDir ["d"] none exLoader).savePath = some ["d", "model_best"] := by
  obtain ⟨hfile, -⟩ := C7_checkpoint_layout exFS ["d", "m.pth"] exLoader
  obtain ⟨-, hdir⟩ := C7_checkpoint_layout exFSDir ["d"] exLoader
  obtain ⟨-, -, h3⟩ := hfile (by decide) (by decide)
  obtain ⟨-, h5, h6⟩ := hdir (by decide) (by decide)
  exact ⟨h3, h5, h6⟩

/-- C8: every output image of a completed `test` run is written into the
resolved output directory under the name `Test_Image_<index>.png`, with
`<index>` the textual form of the sample index yielded by the test loader. -/
theorem C8_test_output_filenames (fs : List String → FSKind) (chk : List String)
    (saveArg : Option (List String)) (loader : List (ℕ × TestSample)) (sp : List String)
    (hsp : (test fs chk saveArg loader).savePath = some sp)
    (he : (test fs chk saveArg loader).error = none) :
    (test fs chk saveArg loader).filesWritten =
      loader.map (fun s => sp ++ ["Test_Image_" ++ toString s.1 ++ ".png"]) := by
  cases hk : fs chk with
  | file =>
      simp only [test, hk] at hsp he ⊢
      by_cases hcfg : fs (chk.dropLast ++ ["denoising.config"]) = FSKind.file
      · simp only [testAfterConfig, hcfg, if_pos] at hsp he ⊢
        exact testAfterBranch_files fs _ _ _ _ _ hsp he
      · simp [testAfterConfig, hcfg] at he
  | dir =>
      simp only [test, hk] at hsp he ⊢
      by_cases hcfg : fs (chk ++ ["denoising.config"]) = FSKind.file
      · simp only [testAfterConfig, hcfg, if_pos] at hsp he ⊢
        exact testAfterBranch_files fs _ _ _ _ _ hsp he
      · simp [testAfterConfig, hcfg] at he
  | absent =>
      simp only [test, hk] at hsp he ⊢
      exact testAfterBranch_files fs _ _ _ _ _ hsp he

/-- C8 witness: one sample with index 0 yields `/d/m/Test_Image_0.png`. -/
theorem C8_witness :
    (test exFS ["d", "m.pth"] none exLoader).savePath = some ["d", "m"] ∧
    (test exFS ["d", "m.pth"] none exLoader).error = none ∧
    (test exFS ["d", "m.pth"] none exLoader).filesWritten =
      [["d", "m", "Test_Image_0.png"]] := by
  refine ⟨by decide, by decide, ?_⟩
  have h := C8_test_output_filenames exFS ["d", "m.pth"] none exLoader ["d", "m"]
    (by decide) (by decide)
  exact h

/-- C10 counterexample: at a path that is neither an existing file nor an
existing directory, `test` does not fail with an unbound-configuration error
(the never-assigned `model_args` is also never read); it proceeds to the
checkpoint load, which fails with file-not-found. -/
theorem C10_counterexample :
    (test exAbsentFS ["missing.pth"] none []).error ≠ some TestError.configUnbound ∧
    (test exAbsentFS ["missing.pth"] none []).error =
      some (TestError.fileNotFound ["missing.pth"]) := by
  constructor
  · decide
  · decide

/-- C10 (amended): if the checkpoint path is neither an existing file nor an
existing directory, `test` fails with a file-not-found error when attempting
to load the checkpoint; no configuration is loaded, no model is constructed
and no output file is written. -/
theorem C10_missing_checkpoint_path (fs : List String → FSKind) (chk : List String)
    (saveArg : Option (List String)) (loader : List (ℕ × TestSample))
    (hf : fs chk ≠ FSKind.file) (hd : fs chk ≠ FSKind.dir) :
    (test fs chk saveArg loader).error = some (TestError.fileNotFound chk) ∧
    (test fs chk saveArg loader).configPath = none ∧
    (test fs chk saveArg loader).modelConstructed = false ∧
    (test fs chk saveArg loader).filesWritten = [] := by
  have ha : fs chk = FSKind.absent := by
    cases hk : fs chk
    · exact absurd hk hf
    · exact absurd hk hd
    · rfl
  simp [test, ha, testAfterBranch, hf]

/-- C10 witness: an empty filesystem. -/
theorem C10_witness :
    (test exAbsentFS ["missing.pth"] none []).error =
      some (TestError.fileNotFound ["missing.pth"]) ∧
    (test exAbsentFS ["missing.pth"] none []).configPath = none ∧
    (test exAbsentFS ["missing.pth"] none []).modelConstructed = false ∧
    (test exAbsentFS ["missing.pth"] none []).filesWritten = [] :=
  C10_missing_checkpoint_path exAbsentFS ["missing.pth"] none [] (by decide) (by decide)

end Denoising
